import Mathlib

/-!
Shallow embedding of the frame-lifecycle and resource-synchronization core of
`meshterial` (`src/meshterial/src/vk_renderer.rs`).

Modelling conventions:
* GPU futures (`Box<GpuFuture>`) are modelled by the inductive `GpuFuture`
  with variants for the trivially-satisfied signal (`vulkano::sync::now`),
  a texture-upload future, an explicit `join`, and the fenced/flushed frame
  submission built in `commit_rendering`.
* Outcomes of external driver calls — surface capabilities, swapchain
  recreation (`recreate_with_dimension`), image acquisition
  (`acquire_next_image`) and flushing (`then_signal_fence_and_flush`) — are
  inputs supplied per call (`RecreateEnv`, `AcquireResult`, `FlushResult`).
* Rust panics (`expect` / `panic!`) are modelled as explicit `panic` outcome
  constructors. `expect` calls wrapping vulkano-internal operations that the
  source always assumes succeed (command-buffer creation, `end_render_pass`,
  `build`, `then_execute`, depth-buffer and framebuffer construction) are
  modelled as succeeding; the flush result is the oracle for submission.
* `cleanup_finished()` frees driver-internal resources and changes no field
  observable in this model; it is a no-op here.
* Swapchains, images, acquire futures and textures are identified by `Nat`
  ids handed out by the environment.
-/

/-- Result of `Swapchain::recreate_with_dimension` as matched by the source:
`UnsupportedDimensions` is recoverable, every other creation error is in the
catch-all `other` arm (the source panics on it). -/
inductive SwapchainCreationError where
  | unsupportedDimensions
  | other
deriving DecidableEq

/-- A GPU completion signal (`Box<GpuFuture>` in the source). -/
inductive GpuFuture where
  /-- the trivially-satisfied signal `vulkano::sync::now(device)` -/
  | now : GpuFuture
  /-- the pending-completion future returned by `ImmutableImage::from_iter` -/
  | uploadFuture (texId : Nat) : GpuFuture
  /-- an explicit `a.join(b)` -/
  | join (a b : GpuFuture) : GpuFuture
  /-- the result of `prev.join(acquire).then_execute(queue, cmdBuf)
      .then_swapchain_present(queue, swapchain, imageNum)
      .then_signal_fence_and_flush()` when the flush succeeds -/
  | frameFuture (prev : GpuFuture) (acquire : Nat) (cmdBuf : List Nat)
      (imageNum : Nat) : GpuFuture
deriving DecidableEq

/-- A framebuffer: one swapchain image plus the depth attachment
(`AttachmentImage::transient(device, dimensions, D16Unorm)`), which we
identify by the dimensions it was created with. -/
structure Framebuffer where
  image : Nat
  depth : Nat × Nat
deriving DecidableEq

/-- The renderer state: the fields of `struct VkRenderer` that the frame
lifecycle, swapchain recreation and the texture store read or write.
`dynamic_state` is represented by the viewport dimensions it stores.
The command buffer builder is the list of appended command ids. -/
structure VkRenderer where
  dimensions : Nat × Nat
  swapchain : Nat
  images : List Nat
  framebuffers : Option (List Framebuffer)
  recreate_swapchain : Bool
  previous_frame_end : Option GpuFuture
  image_num : Option Nat
  acquire_future : Option Nat
  command_buffer_builder : Option (List Nat)
  viewport_dimensions : Nat × Nat
  texture_store : List (String × (Nat × (Nat × Nat)))
deriving DecidableEq

/-- The state `VkRenderer::new` leaves behind: `framebuffers = None`,
`recreate_swapchain = false`, `previous_frame_end = None`, no acquired slot,
no pending builder, empty texture store; `dynamic_state`'s viewport matches
the initial dimensions. The initial extent and swapchain images come from
the driver. -/
def VkRenderer.new (dimensions : Nat × Nat) (swapchainId : Nat)
    (images : List Nat) : VkRenderer :=
  { dimensions := dimensions
    swapchain := swapchainId
    images := images
    framebuffers := none
    recreate_swapchain := false
    previous_frame_end := none
    image_num := none
    acquire_future := none
    command_buffer_builder := none
    viewport_dimensions := dimensions
    texture_store := [] }

instance {ε α : Type} [DecidableEq ε] [DecidableEq α] :
    DecidableEq (Except ε α) := fun a b =>
  match a, b with
  | Except.ok x, Except.ok y =>
      if h : x = y then isTrue (by rw [h]) else isFalse (by simp [h])
  | Except.error x, Except.error y =>
      if h : x = y then isTrue (by rw [h]) else isFalse (by simp [h])
  | Except.ok _, Except.error _ => isFalse (by simp)
  | Except.error _, Except.ok _ => isFalse (by simp)

/-- Inputs to one `recreate_swapchain` call: the surface's current extent
(`caps.current_extent.unwrap()`) and the outcome of
`recreate_with_dimension` (on success, the new swapchain id and images). -/
structure RecreateEnv where
  currentExtent : Nat × Nat
  result : Except SwapchainCreationError (Nat × List Nat)
deriving DecidableEq

/-- Model of `VkRenderer::recreate_swapchain`. Faithful to the source order:
`self.dimensions` and the viewport in `self.dynamic_state` are overwritten
with the surface's current extent BEFORE `recreate_with_dimension` is
attempted; on success the swapchain and images are replaced and
`framebuffers` is set to `None`; on error nothing further changes and the
error is returned. -/
def VkRenderer.recreateSwapchainOp (r : VkRenderer) (env : RecreateEnv) :
    VkRenderer × Except SwapchainCreationError Unit :=
  let r1 := { r with dimensions := env.currentExtent,
                     viewport_dimensions := env.currentExtent }
  match env.result with
  | Except.ok (sc, imgs) =>
      ({ r1 with swapchain := sc, images := imgs, framebuffers := none },
       Except.ok ())
  | Except.error e => (r1, Except.error e)

/-- Model of `with_command_builder`: takes the pending builder, or makes a
fresh (empty) one, applies the mutator, and stores the result back. -/
def VkRenderer.with_command_builder (r : VkRenderer)
    (addCmds : List Nat → List Nat) : VkRenderer :=
  match r.command_buffer_builder with
  | some builder => { r with command_buffer_builder := some (addCmds builder) }
  | none => { r with command_buffer_builder := some (addCmds []) }

/-- Result of `swapchain::acquire_next_image` as matched by the source:
success carries the image index and the acquire future (by id);
`AcquireError::OutOfDate` is recoverable; anything else hits the
`panic!` arm. -/
inductive AcquireResult where
  | ok (imageNum : Nat) (fut : Nat)
  | outOfDate
  | err (msg : String)
deriving DecidableEq

/-- Inputs to one `start_next_frame` call. -/
structure FrameEnv where
  recreate : RecreateEnv
  acquire : AcquireResult
deriving DecidableEq

/-- Outcome of `start_next_frame`: a panic, an early `return None`
(with the mutated state), or `Some resized`. -/
inductive FrameOutcome where
  | panic (msg : String)
  | aborted (r : VkRenderer)
  | ok (r : VkRenderer) (resized : Bool)
deriving DecidableEq

/-- The renderer state an outcome leaves behind, when it is not a panic. -/
def FrameOutcome.stateOf : FrameOutcome → Option VkRenderer
  | FrameOutcome.panic _ => none
  | FrameOutcome.aborted r => some r
  | FrameOutcome.ok r _ => some r

/-- Whether the outcome is a panic. -/
def FrameOutcome.isPanic : FrameOutcome → Bool
  | FrameOutcome.panic _ => true
  | _ => false

/-- Whether the outcome is an early `return None`. -/
def FrameOutcome.isAborted : FrameOutcome → Bool
  | FrameOutcome.aborted _ => true
  | _ => false

/-- The framebuffers built in `start_next_frame`: one per image in
`self.images`, each adding that image and the one shared depth buffer
created from the current `self.dimensions`. -/
def buildFramebuffers (images : List Nat) (dims : Nat × Nat) :
    List Framebuffer :=
  images.map (fun image => { image := image, depth := dims })

/-- Steps 1-2 of `start_next_frame`: `cleanup_finished` on the previous
frame end (no observable change in this model), then install `now(device)`
as `previous_frame_end` if there is none. -/
def VkRenderer.installNow (r : VkRenderer) : VkRenderer :=
  if r.previous_frame_end.isNone
  then { r with previous_frame_end := some GpuFuture.now }
  else r

/-- Step 3 of `start_next_frame` (taken only when `recreate_swapchain` is
set): call `recreate_swapchain()`; on `Ok` clear the flag and continue
(`Sum.inr`), on `UnsupportedDimensions` `return None` with the flag left
set, on any other creation error panic. -/
def VkRenderer.recreateStage (r : VkRenderer) (env : RecreateEnv) :
    FrameOutcome ⊕ VkRenderer :=
  match r.recreateSwapchainOp env with
  | (r1, Except.ok _) => Sum.inr { r1 with recreate_swapchain := false }
  | (r1, Except.error SwapchainCreationError.unsupportedDimensions) =>
      Sum.inl (FrameOutcome.aborted r1)
  | (_, Except.error SwapchainCreationError.other) =>
      Sum.inl (FrameOutcome.panic "swapchain recreation failed")

/-- Step 4 of `start_next_frame`: if `framebuffers` is `None`, build one
framebuffer per image, each sharing the single depth attachment created
from the current dimensions, and set `resized = true`. -/
def VkRenderer.rebuildStage (r : VkRenderer) : VkRenderer × Bool :=
  if r.framebuffers.isNone
  then ({ r with framebuffers := some (buildFramebuffers r.images r.dimensions) },
        true)
  else (r, false)

/-- Steps 5-6 of `start_next_frame`: acquire the next image. On `Ok` store
the image index and acquire future, run `with_command_builder(|cmds| cmds)`
and return `Some(resized)`; on `OutOfDate` set the stale flag and `return
None`; on any other acquisition error panic. -/
def VkRenderer.acquireStage (r : VkRenderer) (resized : Bool)
    (acq : AcquireResult) : FrameOutcome :=
  match acq with
  | AcquireResult.ok imageNum fut =>
      FrameOutcome.ok
        (VkRenderer.with_command_builder
          { r with image_num := some imageNum, acquire_future := some fut }
          (fun cmds => cmds))
        resized
  | AcquireResult.outOfDate =>
      FrameOutcome.aborted { r with recreate_swapchain := true }
  | AcquireResult.err msg => FrameOutcome.panic msg

/-- Model of `start_next_frame`, following the source line by line as the
composition of its sequential blocks: install a trivially-satisfied
completion signal if none exists, recreate the swapchain if the stale flag
is set (early-returning on failure), rebuild absent framebuffers, then
acquire the next image and store the acquired slot. -/
def VkRenderer.start_next_frame (r0 : VkRenderer) (env : FrameEnv) :
    FrameOutcome :=
  let r := r0.installNow
  match (if r.recreate_swapchain
         then r.recreateStage env.recreate
         else Sum.inr r) with
  | Sum.inl out => out
  | Sum.inr r2 =>
      VkRenderer.acquireStage r2.rebuildStage.1 r2.rebuildStage.2 env.acquire

/-- Outcome of `begin_rendering` or `commit_rendering`: a panic or the
mutated state. -/
inductive CallOutcome where
  | panic (msg : String)
  | done (r : VkRenderer)
deriving DecidableEq

/-- The renderer state a call outcome leaves behind, when it is not a panic. -/
def CallOutcome.stateOf : CallOutcome → Option VkRenderer
  | CallOutcome.panic _ => none
  | CallOutcome.done r => some r

/-- Whether the call outcome is a panic. -/
def CallOutcome.isPanic : CallOutcome → Bool
  | CallOutcome.panic _ => true
  | _ => false

/-- The command id the model uses for the `begin_render_pass` command that
`begin_rendering` appends for the selected framebuffer. -/
def beginRenderPassCmd (fb : Framebuffer) : Nat := fb.image

/-- Model of `begin_rendering`: panics unless `image_num` is set and
`framebuffers` is present with an entry at that index; then appends a
render-pass-begin command for that framebuffer through
`with_command_builder`. -/
def VkRenderer.begin_rendering (r : VkRenderer) : CallOutcome :=
  match r.image_num with
  | none =>
      CallOutcome.panic "Could not get image_num - maybe start_next_frame has not been called."
  | some imageNum =>
    match r.framebuffers with
    | none => CallOutcome.panic "Could not get framebuffers as a ref."
    | some fbs =>
      match fbs.get? imageNum with
      | none => CallOutcome.panic "index out of bounds"
      | some fb =>
          CallOutcome.done (r.with_command_builder
            (fun cmds => cmds ++ [beginRenderPassCmd fb]))

/-- Result of `then_signal_fence_and_flush` as matched by the source:
`FlushError::OutOfDate` is the recoverable arm; any other error is logged
(`println!`) and handled by the catch-all arm. -/
inductive FlushResult where
  | ok
  | outOfDate
  | otherError (msg : String)
deriving DecidableEq

/-- Model of `commit_rendering`, following the source order:
1. take `command_buffer_builder` (panic if `None`), `end_render_pass` and
   `build` it into the command buffer;
2. take `previous_frame_end` (panic if `None`), `join` the taken
   `acquire_future` (panic if `None`), `then_execute` the command buffer,
   `then_swapchain_present` the taken `image_num` (panic if `None`),
   `then_signal_fence_and_flush`;
3. on `Ok(future)` install the future as the new `previous_frame_end`;
   on `Err(OutOfDate)` set the stale flag and install `now(device)`;
   on any other error print it and install `now(device)` (the stale flag is
   NOT touched in this arm). -/
def VkRenderer.commit_rendering (r : VkRenderer) (flush : FlushResult) :
    CallOutcome :=
  match r.command_buffer_builder with
  | none =>
      CallOutcome.panic "Could not take command_buffer - maybe begin_rendering was not called."
  | some builder =>
    match r.previous_frame_end with
    | none => CallOutcome.panic "Could not take previous_frame_end."
    | some prev =>
      match r.acquire_future with
      | none =>
          CallOutcome.panic "Could not get acquired_future - maybe begin_rendering was not called before commit_rendering."
      | some acq =>
        match r.image_num with
        | none =>
            CallOutcome.panic "Could not get image_num - maybe begin_rendering was not called before commit_rendering."
        | some imageNum =>
          let taken := { r with command_buffer_builder := none,
                                previous_frame_end := none,
                                acquire_future := none,
                                image_num := none }
          let okFuture := GpuFuture.frameFuture prev acq builder imageNum
          match flush with
          | FlushResult.ok =>
              CallOutcome.done { taken with previous_frame_end := some okFuture }
          | FlushResult.outOfDate =>
              CallOutcome.done
                { taken with recreate_swapchain := true,
                             previous_frame_end := some GpuFuture.now }
          | FlushResult.otherError _ =>
              CallOutcome.done { taken with previous_frame_end := some GpuFuture.now }

/-- Inputs to one `load_texture` cache miss: the decoded image's width and
height (from `image::open`; a failed open panics and is outside this model)
and the id of the `ImmutableImage` the upload creates. The texture id
stands for the identity of the `Arc<ImmutableImage>`: equal ids mean the
same underlying resource. -/
structure TextureEnv where
  texId : Nat
  dims : Nat × Nat
deriving DecidableEq

/-- Model of `load_texture`: if the path is in `texture_store`, return the
cached `(texture, dims)` clone without touching any state; otherwise decode
and upload (producing `tex_future`), take `previous_frame_end` and replace
it with the join of the old future and `tex_future` (or with `tex_future`
alone if there was none), insert the entry into the store, and return it. -/
def VkRenderer.load_texture (r : VkRenderer) (path : String)
    (env : TextureEnv) : VkRenderer × (Nat × (Nat × Nat)) :=
  match r.texture_store.lookup path with
  | some entry => (r, entry)
  | none =>
    let texFuture := GpuFuture.uploadFuture env.texId
    let newPrev := match r.previous_frame_end with
      | some future => some (GpuFuture.join future texFuture)
      | none => some texFuture
    ({ r with previous_frame_end := newPrev,
              texture_store := (path, (env.texId, env.dims)) :: r.texture_store },
     (env.texId, env.dims))

/-- The framebuffers attached by `fbMatches` below: the claim-relevant part
of the Image Chain / Framebuffer coupling invariant. Either the
framebuffers are absent pending rebuild, or there is one framebuffer per
image of the current chain, in order, all sharing one depth attachment. -/
def fbMatches (r : VkRenderer) : Prop :=
  r.framebuffers = none ∨
  ∃ d, r.framebuffers = some (buildFramebuffers r.images d)

/-- A concrete frame environment in which swapchain recreation and image
acquisition both succeed (used to exercise the theorems on the 800x600,
two-image scenario of the spec). -/
def benignEnv : FrameEnv :=
  { recreate := { currentExtent := (800, 600), result := Except.ok (1, [20, 21]) },
    acquire := AcquireResult.ok 0 5 }

/-- A concrete frame environment whose image acquisition reports
out of date. -/
def oodEnv : FrameEnv :=
  { recreate := { currentExtent := (800, 600), result := Except.ok (1, [20, 21]) },
    acquire := AcquireResult.outOfDate }

/-- The state after the first `start_next_frame` (under `benignEnv`) on a
fresh 800x600 renderer with a two-image chain. -/
def firstFrameState : VkRenderer :=
  { dimensions := (800, 600)
    swapchain := 0
    images := [10, 11]
    framebuffers := some [{ image := 10, depth := (800, 600) },
                          { image := 11, depth := (800, 600) }]
    recreate_swapchain := false
    previous_frame_end := some GpuFuture.now
    image_num := some 0
    acquire_future := some 5
    command_buffer_builder := some []
    viewport_dimensions := (800, 600)
    texture_store := [] }

/-- `firstFrameState` after `begin_rendering` appended the render-pass-begin
command: a state on which `commit_rendering` is legal. -/
def commitReadyState : VkRenderer :=
  { firstFrameState with command_buffer_builder := some [10] }

/-- The state `commit_rendering` leaves behind from `commitReadyState` when
the flush succeeds. -/
def commitDoneState : VkRenderer :=
  { firstFrameState with
      command_buffer_builder := none
      previous_frame_end := some (GpuFuture.frameFuture GpuFuture.now 5 [10] 0)
      image_num := none
      acquire_future := none }

/-- The state after a first `start_next_frame` (under `oodEnv`) on a fresh
800x600 renderer: the frame is aborted with the stale flag set. -/
def firstAbortState : VkRenderer :=
  { firstFrameState with
      recreate_swapchain := true
      image_num := none
      acquire_future := none
      command_buffer_builder := none }

theorem installNow_of_none {r : VkRenderer}
    (h : r.previous_frame_end = none) :
    r.installNow = { r with previous_frame_end := some GpuFuture.now } := by
  simp [VkRenderer.installNow, h]

theorem installNow_of_some {r : VkRenderer} {f : GpuFuture}
    (h : r.previous_frame_end = some f) : r.installNow = r := by
  simp [VkRenderer.installNow, h]

theorem installNow_recreate_swapchain (r : VkRenderer) :
    r.installNow.recreate_swapchain = r.recreate_swapchain := by
  unfold VkRenderer.installNow
  split <;> rfl

theorem installNow_framebuffers (r : VkRenderer) :
    r.installNow.framebuffers = r.framebuffers := by
  unfold VkRenderer.installNow
  split <;> rfl

theorem installNow_images (r : VkRenderer) :
    r.installNow.images = r.images := by
  unfold VkRenderer.installNow
  split <;> rfl

theorem installNow_previous_isSome (r : VkRenderer) :
    r.installNow.previous_frame_end.isSome := by
  unfold VkRenderer.installNow
  cases hr : r.previous_frame_end <;> simp [hr]

theorem recreateStage_ok {env : RecreateEnv} {sc : Nat} {imgs : List Nat}
    (r : VkRenderer) (h : env.result = Except.ok (sc, imgs)) :
    r.recreateStage env =
      Sum.inr { r with dimensions := env.currentExtent,
                       viewport_dimensions := env.currentExtent,
                       swapchain := sc, images := imgs,
                       framebuffers := none, recreate_swapchain := false } := by
  simp [VkRenderer.recreateStage, VkRenderer.recreateSwapchainOp, h]

theorem recreateStage_unsupported {env : RecreateEnv} (r : VkRenderer)
    (h : env.result =
         Except.error SwapchainCreationError.unsupportedDimensions) :
    r.recreateStage env =
      Sum.inl (FrameOutcome.aborted
        { r with dimensions := env.currentExtent,
                 viewport_dimensions := env.currentExtent }) := by
  simp [VkRenderer.recreateStage, VkRenderer.recreateSwapchainOp, h]

theorem recreateStage_other {env : RecreateEnv} (r : VkRenderer)
    (h : env.result = Except.error SwapchainCreationError.other) :
    r.recreateStage env =
      Sum.inl (FrameOutcome.panic "swapchain recreation failed") := by
  simp [VkRenderer.recreateStage, VkRenderer.recreateSwapchainOp, h]

theorem rebuildStage_of_none {r : VkRenderer} (h : r.framebuffers = none) :
    r.rebuildStage =
      ({ r with framebuffers := some (buildFramebuffers r.images r.dimensions) },
       true) := by
  simp [VkRenderer.rebuildStage, h]

theorem rebuildStage_of_some {r : VkRenderer} {fbs : List Framebuffer}
    (h : r.framebuffers = some fbs) : r.rebuildStage = (r, false) := by
  simp [VkRenderer.rebuildStage, h]

theorem with_command_builder_previous (r : VkRenderer)
    (f : List Nat → List Nat) :
    (r.with_command_builder f).previous_frame_end = r.previous_frame_end := by
  unfold VkRenderer.with_command_builder
  split <;> rfl

theorem with_command_builder_framebuffers (r : VkRenderer)
    (f : List Nat → List Nat) :
    (r.with_command_builder f).framebuffers = r.framebuffers := by
  unfold VkRenderer.with_command_builder
  split <;> rfl

theorem with_command_builder_images (r : VkRenderer)
    (f : List Nat → List Nat) :
    (r.with_command_builder f).images = r.images := by
  unfold VkRenderer.with_command_builder
  split <;> rfl

theorem start_next_frame_not_stale {r : VkRenderer} (env : FrameEnv)
    (h : r.recreate_swapchain = false) :
    r.start_next_frame env =
      VkRenderer.acquireStage r.installNow.rebuildStage.1
        r.installNow.rebuildStage.2 env.acquire := by
  unfold VkRenderer.start_next_frame
  simp [installNow_recreate_swapchain, h]

theorem start_next_frame_stale {r : VkRenderer} (env : FrameEnv)
    (h : r.recreate_swapchain = true) :
    r.start_next_frame env =
      match r.installNow.recreateStage env.recreate with
      | Sum.inl out => out
      | Sum.inr r2 =>
          VkRenderer.acquireStage r2.rebuildStage.1 r2.rebuildStage.2
            env.acquire := by
  unfold VkRenderer.start_next_frame
  simp [installNow_recreate_swapchain, h]

theorem rebuildStage_previous (r : VkRenderer) :
    r.rebuildStage.1.previous_frame_end = r.previous_frame_end := by
  cases hfb : r.framebuffers with
  | none => rw [rebuildStage_of_none hfb]
  | some fbs => rw [rebuildStage_of_some hfb]

theorem rebuildStage_recreate_swapchain (r : VkRenderer) :
    r.rebuildStage.1.recreate_swapchain = r.recreate_swapchain := by
  cases hfb : r.framebuffers with
  | none => rw [rebuildStage_of_none hfb]
  | some fbs => rw [rebuildStage_of_some hfb]

theorem acquireStage_stateOf_previous {r r' : VkRenderer} {resized : Bool}
    {acq : AcquireResult}
    (h : (r.acquireStage resized acq).stateOf = some r') :
    r'.previous_frame_end = r.previous_frame_end := by
  cases acq with
  | ok n fut =>
      simp only [VkRenderer.acquireStage, FrameOutcome.stateOf,
        Option.some.injEq] at h
      rw [← h, with_command_builder_previous]
  | outOfDate =>
      simp only [VkRenderer.acquireStage, FrameOutcome.stateOf,
        Option.some.injEq] at h
      rw [← h]
  | err m =>
      simp [VkRenderer.acquireStage, FrameOutcome.stateOf] at h

theorem recreateStage_inr_previous {r r2 : VkRenderer} {env : RecreateEnv}
    (h : r.recreateStage env = Sum.inr r2) :
    r2.previous_frame_end = r.previous_frame_end := by
  cases hres : env.result with
  | ok p =>
      obtain ⟨sc, imgs⟩ := p
      rw [recreateStage_ok r hres] at h
      injection h with h2
      rw [← h2]
  | error e =>
      cases e with
      | unsupportedDimensions =>
          rw [recreateStage_unsupported r hres] at h
          simp at h
      | other =>
          rw [recreateStage_other r hres] at h
          simp at h

theorem recreateStage_inl_stateOf_previous {r r1 : VkRenderer}
    {env : RecreateEnv} {out : FrameOutcome}
    (h : r.recreateStage env = Sum.inl out) (hs : out.stateOf = some r1) :
    r1.previous_frame_end = r.previous_frame_end := by
  cases hres : env.result with
  | ok p =>
      obtain ⟨sc, imgs⟩ := p
      rw [recreateStage_ok r hres] at h
      simp at h
  | error e =>
      cases e with
      | unsupportedDimensions =>
          rw [recreateStage_unsupported r hres] at h
          injection h with h2
          rw [← h2] at hs
          simp only [FrameOutcome.stateOf, Option.some.injEq] at hs
          rw [← hs]
      | other =>
          rw [recreateStage_other r hres] at h
          injection h with h2
          rw [← h2] at hs
          simp [FrameOutcome.stateOf] at hs

theorem start_next_frame_stateOf_previous {r r' : VkRenderer}
    {env : FrameEnv} (h : (r.start_next_frame env).stateOf = some r') :
    r'.previous_frame_end = r.installNow.previous_frame_end := by
  by_cases hrs : r.recreate_swapchain = true
  · rw [start_next_frame_stale env hrs] at h
    cases hst : r.installNow.recreateStage env.recreate with
    | inl out =>
        rw [hst] at h
        exact recreateStage_inl_stateOf_previous hst h
    | inr r2 =>
        rw [hst] at h
        have h1 := acquireStage_stateOf_previous h
        rw [h1, rebuildStage_previous]
        exact recreateStage_inr_previous hst
  · rw [start_next_frame_not_stale env (by simpa using hrs)] at h
    have h1 := acquireStage_stateOf_previous h
    rw [h1, rebuildStage_previous]

theorem installNow_dimensions (r : VkRenderer) :
    r.installNow.dimensions = r.dimensions := by
  unfold VkRenderer.installNow
  split <;> rfl

theorem installNow_of_isSome {r : VkRenderer}
    (h : r.previous_frame_end.isSome) : r.installNow = r := by
  unfold VkRenderer.installNow
  cases hr : r.previous_frame_end with
  | none => rw [hr] at h; simp at h
  | some f => simp [hr]

theorem with_command_builder_image_num (r : VkRenderer)
    (f : List Nat → List Nat) :
    (r.with_command_builder f).image_num = r.image_num := by
  unfold VkRenderer.with_command_builder
  split <;> rfl

theorem with_command_builder_acquire_future (r : VkRenderer)
    (f : List Nat → List Nat) :
    (r.with_command_builder f).acquire_future = r.acquire_future := by
  unfold VkRenderer.with_command_builder
  split <;> rfl

theorem with_command_builder_recreate_swapchain (r : VkRenderer)
    (f : List Nat → List Nat) :
    (r.with_command_builder f).recreate_swapchain = r.recreate_swapchain := by
  unfold VkRenderer.with_command_builder
  split <;> rfl

/-- C1: In every non-panicking outcome branch of `commit_rendering`
(successful flush, out-of-date flush, or any other flush failure) the
previously live completion signal `previous_frame_end` is consumed — it
must have been present, and it is taken — and replaced by exactly one new
completion signal, so exactly one signal is live after the call: on success
the flushed frame future (which chains the old signal in), otherwise the
trivially-satisfied `now` signal. And `start_next_frame` installs a
trivially-satisfied completion signal whenever none exists. -/
theorem completion_signal_replaced_exactly_once :
    (∀ (r r' : VkRenderer) (flush : FlushResult),
       r.commit_rendering flush = CallOutcome.done r' →
       ∃ prev, r.previous_frame_end = some prev ∧
         ∃ fut, r'.previous_frame_end = some fut ∧
           ((flush = FlushResult.ok ∧
             ∃ acq b n, fut = GpuFuture.frameFuture prev acq b n) ∨
            (flush ≠ FlushResult.ok ∧ fut = GpuFuture.now))) ∧
    (∀ (r r' : VkRenderer) (env : FrameEnv),
       r.previous_frame_end = none →
       (r.start_next_frame env).stateOf = some r' →
       r'.previous_frame_end = some GpuFuture.now) := by
  constructor
  · intro r r' flush h
    unfold VkRenderer.commit_rendering at h
    cases hb : r.command_buffer_builder with
    | none => rw [hb] at h; simp at h
    | some builder =>
    rw [hb] at h
    cases hp : r.previous_frame_end with
    | none => rw [hp] at h; simp at h
    | some prev =>
    rw [hp] at h
    cases ha : r.acquire_future with
    | none => rw [ha] at h; simp at h
    | some acq =>
    rw [ha] at h
    cases hn : r.image_num with
    | none => rw [hn] at h; simp at h
    | some imageNum =>
    rw [hn] at h
    refine ⟨prev, rfl, ?_⟩
    cases flush with
    | ok =>
      simp only [CallOutcome.done.injEq] at h
      subst h
      exact ⟨_, rfl, Or.inl ⟨rfl, acq, builder, imageNum, rfl⟩⟩
    | outOfDate =>
      simp only [CallOutcome.done.injEq] at h
      subst h
      exact ⟨_, rfl, Or.inr ⟨by simp, rfl⟩⟩
    | otherError msg =>
      simp only [CallOutcome.done.injEq] at h
      subst h
      exact ⟨_, rfl, Or.inr ⟨by simp, rfl⟩⟩
  · intro r r' env hnone h
    rw [start_next_frame_stateOf_previous h, installNow_of_none hnone]

/-- Witness for C1: the 800x600 two-image scenario, committed with a
successful flush, and a fresh renderer beginning its first frame. -/
theorem completion_signal_replaced_exactly_once_witness :
    (commitReadyState.commit_rendering FlushResult.ok =
       CallOutcome.done commitDoneState ∧
     (∃ prev, commitReadyState.previous_frame_end = some prev ∧
       ∃ fut, commitDoneState.previous_frame_end = some fut ∧
         ((FlushResult.ok = FlushResult.ok ∧
           ∃ acq b n, fut = GpuFuture.frameFuture prev acq b n) ∨
          (FlushResult.ok ≠ FlushResult.ok ∧ fut = GpuFuture.now)))) ∧
    ((VkRenderer.new (800, 600) 0 [10, 11]).previous_frame_end = none ∧
     ((VkRenderer.new (800, 600) 0 [10, 11]).start_next_frame
        benignEnv).stateOf = some firstFrameState ∧
     firstFrameState.previous_frame_end = some GpuFuture.now) :=
  ⟨⟨by decide,
    completion_signal_replaced_exactly_once.1 commitReadyState commitDoneState
      FlushResult.ok (by decide)⟩,
   ⟨by decide, by decide,
    completion_signal_replaced_exactly_once.2
      (VkRenderer.new (800, 600) 0 [10, 11]) firstFrameState benignEnv
      (by decide) (by decide)⟩⟩

/-- C7: Calling `load_texture` twice with the same path returns the same
`(texture, dimensions)` pair — the same underlying resource identity — and
the second call is answered from the cache: it leaves the renderer state
(texture store, completion signal, everything) completely unchanged and
does not depend on a second loader outcome, so the loader runs at most
once per key and insertion is idempotent. After the first call the store
maps the path to exactly the returned entry. -/
theorem texture_cache_idempotent_same_handle :
    ∀ (r : VkRenderer) (path : String) (env1 env2 : TextureEnv),
      ((r.load_texture path env1).1.load_texture path env2).2 =
        (r.load_texture path env1).2 ∧
      ((r.load_texture path env1).1.load_texture path env2).1 =
        (r.load_texture path env1).1 ∧
      (r.load_texture path env1).1.texture_store.lookup path =
        some (r.load_texture path env1).2 := by
  intro r path env1 env2
  cases hlk : r.texture_store.lookup path with
  | some entry =>
      refine ⟨?_, ?_, ?_⟩ <;>
        simp [VkRenderer.load_texture, hlk]
  | none =>
      refine ⟨?_, ?_, ?_⟩ <;>
        simp [VkRenderer.load_texture, hlk, List.lookup]

/-- C8: On a cache miss, `load_texture` folds the upload's pending
completion future into the live completion signal chain: the new
`previous_frame_end` is the `join` of the previously live signal and the
upload future — the old signal is joined, not replaced. -/
theorem texture_upload_future_joined_not_replaced
    (r : VkRenderer) (path : String) (env : TextureEnv) (f : GpuFuture)
    (hmiss : r.texture_store.lookup path = none)
    (hprev : r.previous_frame_end = some f) :
    (r.load_texture path env).1.previous_frame_end =
      some (GpuFuture.join f (GpuFuture.uploadFuture env.texId)) := by
  simp [VkRenderer.load_texture, hmiss, hprev]

/-- Witness for C8: loading a texture on the post-first-frame state joins
the upload future with the live `now` signal. -/
theorem texture_upload_future_joined_not_replaced_witness :
    firstFrameState.texture_store.lookup "tex.png" = none ∧
    firstFrameState.previous_frame_end = some GpuFuture.now ∧
    (firstFrameState.load_texture "tex.png"
        { texId := 7, dims := (4, 4) }).1.previous_frame_end =
      some (GpuFuture.join GpuFuture.now (GpuFuture.uploadFuture 7)) :=
  ⟨by decide, by decide,
   texture_upload_future_joined_not_replaced firstFrameState "tex.png"
     { texId := 7, dims := (4, 4) } GpuFuture.now (by decide) (by decide)⟩

/-- C10: `recreate_swapchain` is not atomic on failure: when
`recreate_with_dimension` fails (with any creation error), the error is
returned, but `dimensions` and the viewport in `dynamic_state` have
already been overwritten with the surface's current extent, while the
`swapchain`, `images` and `framebuffers` fields are left unchanged. -/
theorem failed_recreation_updates_dimensions_only
    (r : VkRenderer) (env : RecreateEnv) (e : SwapchainCreationError)
    (herr : env.result = Except.error e) :
    (r.recreateSwapchainOp env).2 = Except.error e ∧
    (r.recreateSwapchainOp env).1.dimensions = env.currentExtent ∧
    (r.recreateSwapchainOp env).1.viewport_dimensions = env.currentExtent ∧
    (r.recreateSwapchainOp env).1.swapchain = r.swapchain ∧
    (r.recreateSwapchainOp env).1.images = r.images ∧
    (r.recreateSwapchainOp env).1.framebuffers = r.framebuffers := by
  simp [VkRenderer.recreateSwapchainOp, herr]

/-- Witness for C10: a failed 640x480 recreation on the post-first-frame
state updates the dimensions and viewport but not the chain. -/
theorem failed_recreation_updates_dimensions_only_witness :
    ({ currentExtent := (640, 480),
       result := Except.error SwapchainCreationError.unsupportedDimensions } :
        RecreateEnv).result =
      Except.error SwapchainCreationError.unsupportedDimensions ∧
    (firstFrameState.recreateSwapchainOp
        { currentExtent := (640, 480),
          result :=
            Except.error
              SwapchainCreationError.unsupportedDimensions }).1.dimensions =
      (640, 480) ∧
    (firstFrameState.recreateSwapchainOp
        { currentExtent := (640, 480),
          result :=
            Except.error
              SwapchainCreationError.unsupportedDimensions }).1.images =
      firstFrameState.images :=
  ⟨by decide,
   (failed_recreation_updates_dimensions_only firstFrameState
      { currentExtent := (640, 480),
        result := Except.error SwapchainCreationError.unsupportedDimensions }
      SwapchainCreationError.unsupportedDimensions (by decide)).2.1,
   (failed_recreation_updates_dimensions_only firstFrameState
      { currentExtent := (640, 480),
        result := Except.error SwapchainCreationError.unsupportedDimensions }
      SwapchainCreationError.unsupportedDimensions (by decide)).2.2.2.2.1⟩

/-- C2: `start_next_frame` returns `None` in exactly two recoverable cases:
the stale flag is set and recreation fails with unsupported dimensions, or
recreation is not needed or succeeds and acquisition reports out of date.
Every aborted call leaves the stale flag set (in the out-of-date case it is
set before returning; in the unsupported-dimensions case it is left set so
the next tick retries). Any other recreation or acquisition failure
panics. -/
theorem begin_frame_none_exactly_in_recoverable_cases
    (r : VkRenderer) (env : FrameEnv) :
    ((r.start_next_frame env).isAborted = true ↔
      ((r.recreate_swapchain = true ∧
        env.recreate.result =
          Except.error SwapchainCreationError.unsupportedDimensions) ∨
       ((r.recreate_swapchain = false ∨
         ∃ sc imgs, env.recreate.result = Except.ok (sc, imgs)) ∧
        env.acquire = AcquireResult.outOfDate))) ∧
    (∀ r', r.start_next_frame env = FrameOutcome.aborted r' →
       r'.recreate_swapchain = true) ∧
    ((r.start_next_frame env).isPanic = true ↔
      ((r.recreate_swapchain = true ∧
        env.recreate.result = Except.error SwapchainCreationError.other) ∨
       ((r.recreate_swapchain = false ∨
         ∃ sc imgs, env.recreate.result = Except.ok (sc, imgs)) ∧
        ∃ m, env.acquire = AcquireResult.err m))) := by
  by_cases hrs : r.recreate_swapchain = true
  · rw [start_next_frame_stale env hrs]
    cases hres : env.recreate.result with
    | ok p =>
        obtain ⟨sc, imgs⟩ := p
        rw [recreateStage_ok _ hres]
        cases hacq : env.acquire with
        | ok n fut =>
            simp [VkRenderer.rebuildStage, VkRenderer.acquireStage,
              FrameOutcome.isAborted, FrameOutcome.isPanic, hrs, hres, hacq]
        | outOfDate =>
            simp [VkRenderer.rebuildStage, VkRenderer.acquireStage,
              FrameOutcome.isAborted, FrameOutcome.isPanic, hrs, hres, hacq]
        | err m =>
            simp [VkRenderer.rebuildStage, VkRenderer.acquireStage,
              FrameOutcome.isAborted, FrameOutcome.isPanic, hrs, hres, hacq]
    | error e =>
        cases e with
        | unsupportedDimensions =>
            rw [recreateStage_unsupported _ hres]
            simp [FrameOutcome.isAborted, FrameOutcome.isPanic, hrs, hres,
              installNow_recreate_swapchain]
        | other =>
            rw [recreateStage_other _ hres]
            simp [FrameOutcome.isAborted, FrameOutcome.isPanic, hrs, hres]
  · have hrs' : r.recreate_swapchain = false := by simpa using hrs
    rw [start_next_frame_not_stale env hrs']
    cases hacq : env.acquire with
    | ok n fut =>
        simp [VkRenderer.acquireStage, FrameOutcome.isAborted,
          FrameOutcome.isPanic, hrs', hacq]
    | outOfDate =>
        simp [VkRenderer.acquireStage, FrameOutcome.isAborted,
          FrameOutcome.isPanic, hrs', hacq]
    | err m =>
        simp [VkRenderer.acquireStage, FrameOutcome.isAborted,
          FrameOutcome.isPanic, hrs', hacq]

/-- Witness for C2: a fresh renderer whose first acquisition reports out of
date aborts the frame and sets the stale flag. -/
theorem begin_frame_none_exactly_in_recoverable_cases_witness :
    (VkRenderer.new (800, 600) 0 [10, 11]).start_next_frame oodEnv =
      FrameOutcome.aborted firstAbortState ∧
    firstAbortState.recreate_swapchain = true ∧
    ((VkRenderer.new (800, 600) 0 [10, 11]).start_next_frame
        oodEnv).isAborted = true :=
  ⟨by decide,
   (begin_frame_none_exactly_in_recoverable_cases
      (VkRenderer.new (800, 600) 0 [10, 11]) oodEnv).2.1 firstAbortState
     (by decide),
   (begin_frame_none_exactly_in_recoverable_cases
      (VkRenderer.new (800, 600) 0 [10, 11]) oodEnv).1.mpr
     (Or.inr ⟨Or.inl (by decide), by decide⟩)⟩

/-- C3: Whenever `start_next_frame` finds the framebuffers absent (here on
the non-stale path; the post-rebuild path is covered by the out-of-date
scenario theorem), it constructs exactly one framebuffer per image of the
image chain, each pairing that image with the single depth attachment
shared across all of them (`buildFramebuffers`), and — when acquisition
succeeds — returns `Some(true)` with the acquired image slot stored. In
particular the very first `start_next_frame` after `VkRenderer.new` does
exactly this. -/
theorem absent_framebuffers_rebuilt_one_per_image :
    (∀ (r : VkRenderer) (env : FrameEnv) (n fut : Nat),
       r.recreate_swapchain = false →
       r.framebuffers = none →
       env.acquire = AcquireResult.ok n fut →
       ∃ r', r.start_next_frame env = FrameOutcome.ok r' true ∧
         r'.framebuffers = some (buildFramebuffers r.images r.dimensions) ∧
         r'.image_num = some n ∧ r'.acquire_future = some fut) ∧
    (∀ (dims : Nat × Nat) (scId : Nat) (imgs : List Nat) (env : FrameEnv)
       (n fut : Nat),
       env.acquire = AcquireResult.ok n fut →
       ∃ r', (VkRenderer.new dims scId imgs).start_next_frame env =
           FrameOutcome.ok r' true ∧
         r'.framebuffers = some (buildFramebuffers imgs dims) ∧
         r'.image_num = some n ∧ r'.acquire_future = some fut) := by
  have main : ∀ (r : VkRenderer) (env : FrameEnv) (n fut : Nat),
      r.recreate_swapchain = false →
      r.framebuffers = none →
      env.acquire = AcquireResult.ok n fut →
      ∃ r', r.start_next_frame env = FrameOutcome.ok r' true ∧
        r'.framebuffers = some (buildFramebuffers r.images r.dimensions) ∧
        r'.image_num = some n ∧ r'.acquire_future = some fut := by
    intro r env n fut hrs hfb hacq
    rw [start_next_frame_not_stale env hrs]
    have hfb' : r.installNow.framebuffers = none := by
      rw [installNow_framebuffers, hfb]
    rw [rebuildStage_of_none hfb', hacq]
    refine ⟨_, rfl, ?_, ?_, ?_⟩
    · rw [with_command_builder_framebuffers]
      simp [installNow_images, installNow_dimensions]
    · rw [with_command_builder_image_num]
    · rw [with_command_builder_acquire_future]
  refine ⟨main, ?_⟩
  intro dims scId imgs env n fut hacq
  have h := main (VkRenderer.new dims scId imgs) env n fut rfl rfl hacq
  simpa [VkRenderer.new] using h

/-- Witness for C3: the fresh 800x600 two-image renderer beginning its
first frame under a successful acquisition. -/
theorem absent_framebuffers_rebuilt_one_per_image_witness :
    benignEnv.acquire = AcquireResult.ok 0 5 ∧
    (∃ r', (VkRenderer.new (800, 600) 0 [10, 11]).start_next_frame benignEnv =
        FrameOutcome.ok r' true ∧
      r'.framebuffers = some (buildFramebuffers [10, 11] (800, 600)) ∧
      r'.image_num = some 0 ∧ r'.acquire_future = some 5) :=
  ⟨by decide,
   absent_framebuffers_rebuilt_one_per_image.2 (800, 600) 0 [10, 11]
     benignEnv 0 5 (by decide)⟩

/-- C4: After a `start_next_frame` whose acquisition reported out of date
(so it returned `None` with the stale flag set), the next
`start_next_frame` whose swapchain recreation succeeds rebuilds the image
chain and the framebuffers exactly once, before acquiring: when the new
acquisition succeeds it returns `Some(true)` with framebuffers built over
the new images, and even when the new acquisition again reports out of
date, the aborted state already holds the rebuilt chain and framebuffers. -/
theorem out_of_date_then_rebuild_before_acquire :
    ∀ (r r1 : VkRenderer) (env1 env2 : FrameEnv) (sc : Nat) (imgs : List Nat),
      r.recreate_swapchain = false →
      env1.acquire = AcquireResult.outOfDate →
      r.start_next_frame env1 = FrameOutcome.aborted r1 →
      env2.recreate.result = Except.ok (sc, imgs) →
      r1.recreate_swapchain = true ∧
      (∀ n fut, env2.acquire = AcquireResult.ok n fut →
        ∃ r2, r1.start_next_frame env2 = FrameOutcome.ok r2 true ∧
          r2.images = imgs ∧
          r2.framebuffers =
            some (buildFramebuffers imgs env2.recreate.currentExtent)) ∧
      (env2.acquire = AcquireResult.outOfDate →
        ∃ r2, r1.start_next_frame env2 = FrameOutcome.aborted r2 ∧
          r2.images = imgs ∧
          r2.framebuffers =
            some (buildFramebuffers imgs env2.recreate.currentExtent)) := by
  intro r r1 env1 env2 sc imgs hrs hacq1 h1 hres2
  rw [start_next_frame_not_stale env1 hrs, hacq1] at h1
  simp only [VkRenderer.acquireStage] at h1
  injection h1 with h1'
  subst h1'
  have hprev : ({ r.installNow.rebuildStage.1 with
      recreate_swapchain := true } : VkRenderer).previous_frame_end.isSome := by
    simp only []
    rw [rebuildStage_previous]
    exact installNow_previous_isSome r
  refine ⟨rfl, ?_, ?_⟩
  · intro n fut hacq2
    rw [start_next_frame_stale env2 rfl, installNow_of_isSome hprev,
        recreateStage_ok _ hres2, hacq2]
    refine ⟨_, rfl, ?_, ?_⟩
    · rw [with_command_builder_images]
      simp [VkRenderer.rebuildStage]
    · rw [with_command_builder_framebuffers]
      simp [VkRenderer.rebuildStage]
  · intro hacq2
    rw [start_next_frame_stale env2 rfl, installNow_of_isSome hprev,
        recreateStage_ok _ hres2, hacq2]
    refine ⟨_, rfl, ?_, ?_⟩
    · simp [VkRenderer.rebuildStage]
    · simp [VkRenderer.rebuildStage]

/-- Witness for C4: the fresh renderer aborted by an out-of-date
acquisition, followed by a successful recreation to a two-image chain. -/
theorem out_of_date_then_rebuild_before_acquire_witness :
    ((VkRenderer.new (800, 600) 0 [10, 11]).recreate_swapchain = false ∧
     oodEnv.acquire = AcquireResult.outOfDate ∧
     (VkRenderer.new (800, 600) 0 [10, 11]).start_next_frame oodEnv =
       FrameOutcome.aborted firstAbortState ∧
     benignEnv.recreate.result = Except.ok (1, [20, 21])) ∧
    (firstAbortState.recreate_swapchain = true ∧
     (∀ n fut, benignEnv.acquire = AcquireResult.ok n fut →
       ∃ r2, firstAbortState.start_next_frame benignEnv =
           FrameOutcome.ok r2 true ∧
         r2.images = [20, 21] ∧
         r2.framebuffers =
           some (buildFramebuffers [20, 21] benignEnv.recreate.currentExtent)) ∧
     (benignEnv.acquire = AcquireResult.outOfDate →
       ∃ r2, firstAbortState.start_next_frame benignEnv =
           FrameOutcome.aborted r2 ∧
         r2.images = [20, 21] ∧
         r2.framebuffers =
           some (buildFramebuffers [20, 21] benignEnv.recreate.currentExtent))) :=
  ⟨⟨by decide, by decide, by decide, by decide⟩,
   out_of_date_then_rebuild_before_acquire
     (VkRenderer.new (800, 600) 0 [10, 11]) firstAbortState oodEnv benignEnv
     1 [20, 21] (by decide) (by decide) (by decide) (by decide)⟩

/-- Counterexample to C5: committing with a non-out-of-date flush failure
on a legal commit state leaves `recreate_swapchain = false` — the surface
is NOT marked stale, contrary to the claim that such failures are treated
the same as the out-of-date case. -/
theorem commit_other_failure_not_marked_stale_cex :
    (commitReadyState.commit_rendering
        (FlushResult.otherError "device lost")).stateOf.map
      VkRenderer.recreate_swapchain = some false := by
  decide

/-- C5 (amended): In `commit_rendering`, a flush failure other than out of
date is logged and a trivially-satisfied completion signal is installed,
and the call is never fatal (it completes normally whenever the commit
state is legal); but unlike the out-of-date case the surface is NOT marked
stale — the stale flag is left exactly as it was. -/
theorem commit_other_failure_nonfatal_fresh_signal
    (r : VkRenderer) (msg : String)
    (builder : List Nat) (prev : GpuFuture) (acq n : Nat)
    (hb : r.command_buffer_builder = some builder)
    (hp : r.previous_frame_end = some prev)
    (ha : r.acquire_future = some acq)
    (hn : r.image_num = some n) :
    ∃ r', r.commit_rendering (FlushResult.otherError msg) =
        CallOutcome.done r' ∧
      r'.previous_frame_end = some GpuFuture.now ∧
      r'.recreate_swapchain = r.recreate_swapchain := by
  unfold VkRenderer.commit_rendering
  rw [hb, hp, ha, hn]
  exact ⟨_, rfl, rfl, rfl⟩

/-- Witness for the amended C5: the concrete commit-ready state flushed
with a non-out-of-date error. -/
theorem commit_other_failure_nonfatal_fresh_signal_witness :
    commitReadyState.command_buffer_builder = some [10] ∧
    commitReadyState.previous_frame_end = some GpuFuture.now ∧
    commitReadyState.acquire_future = some 5 ∧
    commitReadyState.image_num = some 0 ∧
    (∃ r', commitReadyState.commit_rendering
        (FlushResult.otherError "device lost") = CallOutcome.done r' ∧
      r'.previous_frame_end = some GpuFuture.now ∧
      r'.recreate_swapchain = commitReadyState.recreate_swapchain) :=
  ⟨by decide, by decide, by decide, by decide,
   commit_other_failure_nonfatal_fresh_signal commitReadyState "device lost"
     [10] GpuFuture.now 5 0 (by decide) (by decide) (by decide) (by decide)⟩

theorem start_next_frame_ok_flag_false {r r1 : VkRenderer} {env : FrameEnv}
    {b : Bool} (h : r.start_next_frame env = FrameOutcome.ok r1 b) :
    r1.recreate_swapchain = false := by
  by_cases hrs : r.recreate_swapchain = true
  · rw [start_next_frame_stale env hrs] at h
    cases hst : r.installNow.recreateStage env.recreate with
    | inl out =>
        rw [hst] at h
        cases hres : env.recreate.result with
        | ok p =>
            obtain ⟨sc, imgs⟩ := p
            rw [recreateStage_ok _ hres] at hst
            simp at hst
        | error e =>
            cases e with
            | unsupportedDimensions =>
                rw [recreateStage_unsupported _ hres] at hst
                injection hst with hst'
                rw [← hst'] at h
                simp at h
            | other =>
                rw [recreateStage_other _ hres] at hst
                injection hst with hst'
                rw [← hst'] at h
                simp at h
    | inr r2 =>
        rw [hst] at h
        cases hacq : env.acquire with
        | ok n fut =>
            rw [hacq] at h
            simp only [VkRenderer.acquireStage] at h
            injection h with h' hb
            rw [← h', with_command_builder_recreate_swapchain]
            show r2.rebuildStage.1.recreate_swapchain = false
            rw [rebuildStage_recreate_swapchain]
            cases hres : env.recreate.result with
            | ok p =>
                obtain ⟨sc, imgs⟩ := p
                rw [recreateStage_ok _ hres] at hst
                injection hst with hst'
                rw [← hst']
            | error e =>
                cases e with
                | unsupportedDimensions =>
                    rw [recreateStage_unsupported _ hres] at hst
                    simp at hst
                | other =>
                    rw [recreateStage_other _ hres] at hst
                    simp at hst
        | outOfDate =>
            rw [hacq] at h
            simp [VkRenderer.acquireStage] at h
        | err m =>
            rw [hacq] at h
            simp [VkRenderer.acquireStage] at h
  · have hrs' : r.recreate_swapchain = false := by simpa using hrs
    rw [start_next_frame_not_stale env hrs'] at h
    cases hacq : env.acquire with
    | ok n fut =>
        rw [hacq] at h
        simp only [VkRenderer.acquireStage] at h
        injection h with h' hb
        rw [← h', with_command_builder_recreate_swapchain,
            rebuildStage_recreate_swapchain, installNow_recreate_swapchain]
        exact hrs'
    | outOfDate =>
        rw [hacq] at h
        simp [VkRenderer.acquireStage] at h
    | err m =>
        rw [hacq] at h
        simp [VkRenderer.acquireStage] at h

/-- Counterexample to C6: a second `start_next_frame` without an
intervening commit does not panic — on the concrete post-first-frame state
it simply succeeds again (overwriting the acquired slot), contrary to the
claim that it is a fatal programmer error. -/
theorem second_begin_frame_does_not_panic_cex :
    (VkRenderer.new (800, 600) 0 [10, 11]).start_next_frame benignEnv =
      FrameOutcome.ok firstFrameState true ∧
    firstFrameState.start_next_frame benignEnv =
      FrameOutcome.ok firstFrameState false ∧
    (firstFrameState.start_next_frame benignEnv).isPanic = false := by
  exact ⟨by decide, by decide, by decide⟩

/-- C6 (amended): Calling `commit_rendering` without a prior
`start_next_frame`/image acquisition (no pending command builder, no live
completion signal, no acquire future, or no image index) is a fatal
programmer error — the call panics rather than silently doing nothing. But
calling `start_next_frame` a second time without committing is NOT fatal:
when its acquisition succeeds it returns `Some _` again, overwriting the
stored acquired image slot. -/
theorem commit_without_begin_panics_but_double_begin_does_not :
    (∀ (r : VkRenderer) (flush : FlushResult),
       r.command_buffer_builder = none ∨ r.previous_frame_end = none ∨
         r.acquire_future = none ∨ r.image_num = none →
       (r.commit_rendering flush).isPanic = true) ∧
    (∀ (r r1 : VkRenderer) (env1 env2 : FrameEnv) (b : Bool) (n fut : Nat),
       r.start_next_frame env1 = FrameOutcome.ok r1 b →
       env2.acquire = AcquireResult.ok n fut →
       ∃ r2 b2, r1.start_next_frame env2 = FrameOutcome.ok r2 b2 ∧
         r2.image_num = some n ∧ r2.acquire_future = some fut) := by
  constructor
  · intro r flush hcase
    unfold VkRenderer.commit_rendering
    cases hb : r.command_buffer_builder with
    | none => rfl
    | some builder =>
    cases hp : r.previous_frame_end with
    | none => rfl
    | some prev =>
    cases ha : r.acquire_future with
    | none => rfl
    | some acq =>
    cases hn : r.image_num with
    | none => rfl
    | some imageNum =>
    rcases hcase with h | h | h | h <;> simp_all
  · intro r r1 env1 env2 b n fut h1 hacq2
    have hflag : r1.recreate_swapchain = false :=
      start_next_frame_ok_flag_false h1
    rw [start_next_frame_not_stale env2 hflag, hacq2]
    refine ⟨_, _, rfl, ?_, ?_⟩
    · rw [with_command_builder_image_num]
    · rw [with_command_builder_acquire_future]

/-- Witness for the amended C6: a fresh renderer has no pending command
builder, so committing panics; and the concrete double-begin succeeds. -/
theorem commit_without_begin_panics_but_double_begin_does_not_witness :
    ((VkRenderer.new (800, 600) 0 [10, 11]).command_buffer_builder = none ∧
     ((VkRenderer.new (800, 600) 0 [10, 11]).commit_rendering
        FlushResult.ok).isPanic = true) ∧
    ((VkRenderer.new (800, 600) 0 [10, 11]).start_next_frame benignEnv =
       FrameOutcome.ok firstFrameState true ∧
     benignEnv.acquire = AcquireResult.ok 0 5 ∧
     (∃ r2 b2, firstFrameState.start_next_frame benignEnv =
         FrameOutcome.ok r2 b2 ∧
       r2.image_num = some 0 ∧ r2.acquire_future = some 5)) :=
  ⟨⟨by decide,
    commit_without_begin_panics_but_double_begin_does_not.1
      (VkRenderer.new (800, 600) 0 [10, 11]) FlushResult.ok
      (Or.inl (by decide))⟩,
   ⟨by decide, by decide,
    commit_without_begin_panics_but_double_begin_does_not.2
      (VkRenderer.new (800, 600) 0 [10, 11]) firstFrameState benignEnv
      benignEnv true 0 5 (by decide) (by decide)⟩⟩

theorem fbMatches_congr {a b : VkRenderer}
    (hf : a.framebuffers = b.framebuffers) (hi : a.images = b.images)
    (h : fbMatches b) : fbMatches a := by
  unfold fbMatches at *
  rw [hf, hi]
  exact h

theorem installNow_fbMatches {r : VkRenderer} (h : fbMatches r) :
    fbMatches r.installNow :=
  fbMatches_congr (installNow_framebuffers r) (installNow_images r) h

theorem rebuildStage_fbMatches {r : VkRenderer} (h : fbMatches r) :
    fbMatches r.rebuildStage.1 := by
  cases hfb : r.framebuffers with
  | none =>
      rw [rebuildStage_of_none hfb]
      exact Or.inr ⟨r.dimensions, rfl⟩
  | some fbs =>
      rw [rebuildStage_of_some hfb]
      exact h

theorem recreateStage_inr_framebuffers {r r2 : VkRenderer}
    {env : RecreateEnv} (h : r.recreateStage env = Sum.inr r2) :
    r2.framebuffers = none := by
  cases hres : env.result with
  | ok p =>
      obtain ⟨sc, imgs⟩ := p
      rw [recreateStage_ok r hres] at h
      injection h with h2
      rw [← h2]
  | error e =>
      cases e with
      | unsupportedDimensions =>
          rw [recreateStage_unsupported r hres] at h
          simp at h
      | other =>
          rw [recreateStage_other r hres] at h
          simp at h

theorem recreateStage_inl_stateOf_chain {r r1 : VkRenderer}
    {env : RecreateEnv} {out : FrameOutcome}
    (h : r.recreateStage env = Sum.inl out) (hs : out.stateOf = some r1) :
    r1.framebuffers = r.framebuffers ∧ r1.images = r.images := by
  cases hres : env.result with
  | ok p =>
      obtain ⟨sc, imgs⟩ := p
      rw [recreateStage_ok r hres] at h
      simp at h
  | error e =>
      cases e with
      | unsupportedDimensions =>
          rw [recreateStage_unsupported r hres] at h
          injection h with h2
          rw [← h2] at hs
          simp only [FrameOutcome.stateOf, Option.some.injEq] at hs
          rw [← hs]
          exact ⟨rfl, rfl⟩
      | other =>
          rw [recreateStage_other r hres] at h
          injection h with h2
          rw [← h2] at hs
          simp [FrameOutcome.stateOf] at hs

theorem acquireStage_stateOf_chain {r r' : VkRenderer} {resized : Bool}
    {acq : AcquireResult}
    (h : (r.acquireStage resized acq).stateOf = some r') :
    r'.framebuffers = r.framebuffers ∧ r'.images = r.images := by
  cases acq with
  | ok n fut =>
      simp only [VkRenderer.acquireStage, FrameOutcome.stateOf,
        Option.some.injEq] at h
      rw [← h, with_command_builder_framebuffers, with_command_builder_images]
      exact ⟨rfl, rfl⟩
  | outOfDate =>
      simp only [VkRenderer.acquireStage, FrameOutcome.stateOf,
        Option.some.injEq] at h
      rw [← h]
      exact ⟨rfl, rfl⟩
  | err m =>
      simp [VkRenderer.acquireStage, FrameOutcome.stateOf] at h

theorem start_next_frame_stateOf_fbMatches {r r' : VkRenderer}
    {env : FrameEnv} (hm : fbMatches r)
    (h : (r.start_next_frame env).stateOf = some r') : fbMatches r' := by
  by_cases hrs : r.recreate_swapchain = true
  · rw [start_next_frame_stale env hrs] at h
    cases hst : r.installNow.recreateStage env.recreate with
    | inl out =>
        rw [hst] at h
        obtain ⟨hf, hi⟩ := recreateStage_inl_stateOf_chain hst h
        exact fbMatches_congr hf hi (installNow_fbMatches hm)
    | inr r2 =>
        rw [hst] at h
        obtain ⟨hf, hi⟩ := acquireStage_stateOf_chain h
        exact fbMatches_congr hf hi
          (rebuildStage_fbMatches (Or.inl (recreateStage_inr_framebuffers hst)))
  · have hrs' : r.recreate_swapchain = false := by simpa using hrs
    rw [start_next_frame_not_stale env hrs'] at h
    obtain ⟨hf, hi⟩ := acquireStage_stateOf_chain h
    exact fbMatches_congr hf hi (rebuildStage_fbMatches (installNow_fbMatches hm))

theorem commit_stateOf_chain {r r' : VkRenderer} {flush : FlushResult}
    (h : (r.commit_rendering flush).stateOf = some r') :
    r'.framebuffers = r.framebuffers ∧ r'.images = r.images := by
  unfold VkRenderer.commit_rendering at h
  cases hb : r.command_buffer_builder with
  | none => rw [hb] at h; simp [CallOutcome.stateOf] at h
  | some builder =>
  rw [hb] at h
  cases hp : r.previous_frame_end with
  | none => rw [hp] at h; simp [CallOutcome.stateOf] at h
  | some prev =>
  rw [hp] at h
  cases ha : r.acquire_future with
  | none => rw [ha] at h; simp [CallOutcome.stateOf] at h
  | some acq =>
  rw [ha] at h
  cases hn : r.image_num with
  | none => rw [hn] at h; simp [CallOutcome.stateOf] at h
  | some imageNum =>
  rw [hn] at h
  cases flush <;>
    simp only [CallOutcome.stateOf, Option.some.injEq] at h <;>
    rw [← h] <;> exact ⟨rfl, rfl⟩

/-- C9: The Image Chain / Framebuffer coupling invariant `fbMatches`
(framebuffers absent pending rebuild, or exactly one framebuffer per image
of the current chain built from those images with one shared depth
attachment) holds after construction and is preserved by every
`start_next_frame`, every `commit_rendering` and every
`recreate_swapchain` call; and a successful swapchain recreation always
sets the framebuffers to `None` in the same step. -/
theorem framebuffers_never_partially_stale :
    (∀ (dims : Nat × Nat) (scId : Nat) (imgs : List Nat),
       fbMatches (VkRenderer.new dims scId imgs)) ∧
    (∀ (r r' : VkRenderer) (env : FrameEnv), fbMatches r →
       (r.start_next_frame env).stateOf = some r' → fbMatches r') ∧
    (∀ (r r' : VkRenderer) (flush : FlushResult), fbMatches r →
       (r.commit_rendering flush).stateOf = some r' → fbMatches r') ∧
    (∀ (r : VkRenderer) (env : RecreateEnv), fbMatches r →
       fbMatches (r.recreateSwapchainOp env).1) ∧
    (∀ (r : VkRenderer) (env : RecreateEnv) (sc : Nat) (imgs : List Nat),
       env.result = Except.ok (sc, imgs) →
       (r.recreateSwapchainOp env).1.framebuffers = none) := by
  refine ⟨?_, ?_, ?_, ?_, ?_⟩
  · intro dims scId imgs
    exact Or.inl rfl
  · intro r r' env hm h
    exact start_next_frame_stateOf_fbMatches hm h
  · intro r r' flush hm h
    obtain ⟨hf, hi⟩ := commit_stateOf_chain h
    exact fbMatches_congr hf hi hm
  · intro r env hm
    cases hres : env.result with
    | ok p =>
        obtain ⟨sc, imgs⟩ := p
        simp only [VkRenderer.recreateSwapchainOp, hres]
        exact Or.inl rfl
    | error e =>
        refine fbMatches_congr ?_ ?_ hm <;>
          simp [VkRenderer.recreateSwapchainOp, hres]
  · intro r env sc imgs hres
    simp [VkRenderer.recreateSwapchainOp, hres]

/-- Witness for C9: the invariant holds on the fresh 800x600 renderer and
is carried through its first frame. -/
theorem framebuffers_never_partially_stale_witness :
    fbMatches (VkRenderer.new (800, 600) 0 [10, 11]) ∧
    ((VkRenderer.new (800, 600) 0 [10, 11]).start_next_frame
        benignEnv).stateOf = some firstFrameState ∧
    fbMatches firstFrameState :=
  ⟨Or.inl rfl, by decide,
   framebuffers_never_partially_stale.2.1
     (VkRenderer.new (800, 600) 0 [10, 11]) firstFrameState benignEnv
     (Or.inl rfl) (by decide)⟩
